import Mathlib

/-!
Verification development for the Stylii streaming design-generation client.

The definitions below are a shallow embedding of the streaming client
(`generateDesign` and its helpers in the API client module) and of the
zustand store (the variant that tracks `currentProgress`).  External
effects are made explicit:

* the HTTP response is a value (`HttpResp`) holding the status flags and
  the sequence of complete lines the chunk decoder yields from the body;
* each line is pre-classified (`SSELine`), since `JSON.parse` is an
  external routine: a line either lacks the literal prefix, fails to
  parse, or parses to a `Payload` record mirroring the server schema;
* the progress callback is a function returning a `Bool`: `true` means it
  returned normally, `false` means it threw (the thrown value is never
  inspected by the client, only caught and logged);
* wall-clock reads and the random id token are an `Env` record;
* the run result records, besides the promise outcome, whether `fetch`
  was reached, the ordered list of callback invocations, and how many
  times the per-line catch block logged a warning.
-/

namespace Stylii

/-- JS truthiness-based defaulting for string fields: `o || d` where the
empty string is falsy. -/
def jsOr (o : Option String) (d : String) : String :=
  match o with
  | some s => if s = "" then d else s
  | none => d

/-- One entry of `designer_data.product_recommendations` as read by the
transformer: only `title`, `vendor`, `price`, `thumbnail`, `url` are
accessed. -/
structure ProductRec where
  title : Option String := none
  vendor : Option String := none
  price : Option ℚ := none
  thumbnail : Option String := none
  url : Option String := none
deriving DecidableEq

/-- The `designer_data` section of a server payload; the analysis
sub-payloads are opaque to the client and modelled as opaque strings. -/
structure DesignerData where
  product_recommendations : Option (List ProductRec) := none
  room_analysis : Option String := none
  design_critique : Option String := none
  user_preferences : Option String := none
deriving DecidableEq

/-- A parsed JSON payload of one `data: ` frame, in the server schema the
client reads: `error`, `status`, `success`, `message`, `request_id`,
`generated_image.data`, `designer_data`.  `success` holds the truthiness
of the JSON field; `generated_image` holds the `.data` string when the
nested object and field are present. -/
structure Payload where
  error : Option String := none
  status : Option String := none
  success : Bool := false
  message : Option String := none
  request_id : Option String := none
  generated_image : Option String := none
  designer_data : Option DesignerData := none
deriving DecidableEq

/-- Truthiness of `data.error` (absent or empty string is falsy). -/
def errTruthy (p : Payload) : Bool :=
  match p.error with
  | some s => s != ""
  | none => false

/-- The guard testing status equality with the literal string completed
together with the success flag truthiness. -/
def isSuccessPayload (p : Payload) : Bool :=
  p.status == some ("completed") && p.success

/-- A payload handled by the progress branch: no truthy `error` field and
not a terminal-success frame. -/
def isProgressPayload (p : Payload) : Bool :=
  !errTruthy p && !isSuccessPayload p

/-- The `StreamingProgress` event shape handed to the callback. -/
structure StreamingProgress where
  status : String
  message : String
  step : Option Nat := none
  data : Option Payload := none
deriving DecidableEq

/-- The event built for the callback:
the status defaulted to the string processing, the message defaulted to
the string Processing..., with the raw payload attached. -/
def mkProgress (p : Payload) : StreamingProgress :=
  { status := jsOr p.status ("processing")
    message := jsOr p.message ("Processing...")
    step := none
    data := some p }

/-- A `Product` of the frontend result shape. -/
structure Product where
  id : String
  title : String
  vendor : String
  price : ℚ
  image : String
  url : String
  thumbnail : Option String := none
deriving DecidableEq

/-- The terminal `DesignResult` shape. -/
structure DesignResult where
  id : String
  renderUrl : String
  products : List Product
  style : String
  budget : ℚ
  createdAt : Nat
  latency : ℚ
  designerData : Option DesignerData := none
  roomAnalysis : Option String := none
  designCritique : Option String := none
  userPreferences : Option String := none
deriving DecidableEq

/-- The `GenerateDesignInput` shape (images kept as opaque blobs). -/
structure GenerateDesignInput where
  images : List String
  style : String
  budget : ℚ
  notes : Option String := none
  selectedProducts : Option (List String) := none
deriving DecidableEq

/-- Environment reads made during one attempt: `Date.now()` at entry and
at transformation, `new Date()` and the `Math.random()` id token. -/
structure Env where
  startTime : Nat
  endTime : Nat
  now : Nat
  randToken : String
deriving DecidableEq

/-- The recommendation list read: designer_data product_recommendations
defaulted to the empty list (an empty
array is truthy in JS, so only a missing field falls back). -/
def payloadRecs (p : Payload) : List ProductRec :=
  (p.designer_data.bind (fun d => d.product_recommendations)).getD []

/-- One mapped product:
the display id is the decimal string of index+1 and each text field has
its documented fallback. -/
def mkProduct (index : Nat) (r : ProductRec) : Product :=
  { id := toString (index + 1)
    title := jsOr r.title ("Unknown Product")
    vendor := jsOr r.vendor ("Unknown")
    price := r.price.getD 0
    image := jsOr r.thumbnail ("/placeholder.png")
    url := jsOr r.url ("#")
    thumbnail := r.thumbnail }

/-- Render reference: a data URI when inline image data is present and
truthy, else the placeholder path. -/
def renderUrlOf (p : Payload) : String :=
  match p.generated_image with
  | some d => if d = "" then "/placeholder.png" else "data:image/png;base64," ++ d
  | none => "/placeholder.png"

/-- The result transformer: builds the `DesignResult` returned to the
caller from the captured terminal payload and the original request. -/
def transformResult (input : GenerateDesignInput) (p : Payload) (env : Env) : DesignResult :=
  { id := jsOr p.request_id env.randToken
    renderUrl := renderUrlOf p
    products := (payloadRecs p).mapIdx mkProduct
    style := input.style
    budget := input.budget
    createdAt := env.now
    latency := ((env.endTime : ℚ) - (env.startTime : ℚ)) / 1000
    designerData := p.designer_data
    roomAnalysis := p.designer_data.bind (fun d => d.room_analysis)
    designCritique := p.designer_data.bind (fun d => d.design_critique)
    userPreferences := p.designer_data.bind (fun d => d.user_preferences) }

/-- A complete line yielded by the chunk decoder, classified by the two
syntactic checks the client performs: the `data: ` prefix test and
`JSON.parse` of the remainder. -/
inductive SSELine where
  | noData (raw : String)
  | malformed (raw : String)
  | frame (payload : Payload)
deriving DecidableEq

/-- Mutable state of the line-processing loop: the captured terminal
payload slot, the ordered callback invocations performed so far, and the
number of `console.warn` emissions from the per-line catch block. -/
structure LoopState where
  finalResult : Option Payload := none
  dispatched : List StreamingProgress := []
  warnings : Nat := 0
deriving DecidableEq

/-- Processing of one complete line inside the read loop.  The body of
the `try` covers the parse, the `if (data.error) throw`, the capture test
and the callback call; every throw inside it lands in the catch, which
logs and continues with the next line. -/
def processLine (cb : Option (StreamingProgress → Bool)) (s : LoopState)
    (line : SSELine) : LoopState :=
  match line with
  | .noData _ => s
  | .malformed _ => { s with warnings := s.warnings + 1 }
  | .frame p =>
    if errTruthy p then
      { s with warnings := s.warnings + 1 }
    else if isSuccessPayload p then
      { s with finalResult := some p }
    else
      match cb with
      | none => s
      | some f =>
        let ev := mkProgress p
        if f ev then { s with dispatched := s.dispatched ++ [ev] }
        else { s with dispatched := s.dispatched ++ [ev], warnings := s.warnings + 1 }

/-- The HTTP response as seen by the client: `response.ok`,
`response.status`, presence of `response.body`, and the complete lines
the chunk decoder yields from the body bytes. -/
structure HttpResp where
  ok : Bool
  status : Nat
  hasBody : Bool
  lines : List SSELine
deriving DecidableEq

instance : DecidableEq (Except String DesignResult) := fun a b =>
  match a, b with
  | .ok x, .ok y => decidable_of_iff (x = y) (by simp)
  | .error x, .error y => decidable_of_iff (x = y) (by simp)
  | .ok _, .error _ => isFalse (by simp)
  | .error _, .ok _ => isFalse (by simp)

/-- The observable trace of one `generateDesign` call: the settled
promise, whether `fetch` was reached, the callback invocations in order,
and the warning count. -/
structure RunResult where
  outcome : Except String DesignResult
  networkCalled : Bool
  dispatched : List StreamingProgress
  warnings : Nat
deriving DecidableEq

/-- The `generateDesign` entry point: image validation, the HTTP guards,
the line loop, the missing-result check and the transformation. -/
def generateDesignRun (input : GenerateDesignInput) (resp : HttpResp)
    (cb : Option (StreamingProgress → Bool)) (env : Env) : RunResult :=
  if input.images.isEmpty then
    { outcome := .error ("At least one image is required")
      networkCalled := false, dispatched := [], warnings := 0 }
  else if resp.ok = false then
    { outcome := .error ("HTTP error! status: " ++ toString resp.status)
      networkCalled := true, dispatched := [], warnings := 0 }
  else if resp.hasBody = false then
    { outcome := .error ("No response body")
      networkCalled := true, dispatched := [], warnings := 0 }
  else
    let s := resp.lines.foldl (processLine cb) {}
    match s.finalResult with
    | none =>
      { outcome := .error ("No final result received from server")
        networkCalled := true, dispatched := s.dispatched, warnings := s.warnings }
    | some p =>
      { outcome := .ok (transformResult input p env)
        networkCalled := true, dispatched := s.dispatched, warnings := s.warnings }

/-- The payloads the capture branch accepts, in stream order. -/
def successPayloads (lines : List SSELine) : List Payload :=
  lines.filterMap fun l =>
    match l with
    | .frame p => if errTruthy p = false ∧ isSuccessPayload p = true then some p else none
    | _ => none

/-! ## The zustand store (variant with `currentProgress`) -/

/-- The `StyliiStore` state shape. -/
structure StyliiStore where
  images : List String
  budget : ℚ
  style : String
  notes : String
  selectedProducts : List String
  isGenerating : Bool
  error : Option String
  currentProgress : Option StreamingProgress
  results : List DesignResult
  currentResultId : Option String
deriving DecidableEq

/-- The initial state of the store. -/
def initialStore : StyliiStore :=
  { images := [], budget := 5000, style := "modern", notes := ""
    selectedProducts := [], isGenerating := false, error := none
    currentProgress := none, results := [], currentResultId := none }

/-- The setImages action. -/
def setImages (v : List String) (s : StyliiStore) : StyliiStore := { s with images := v }

/-- The setBudget action. -/
def setBudget (v : ℚ) (s : StyliiStore) : StyliiStore := { s with budget := v }

/-- The setStyle action. -/
def setStyle (v : String) (s : StyliiStore) : StyliiStore := { s with style := v }

/-- The setNotes action. -/
def setNotes (v : String) (s : StyliiStore) : StyliiStore := { s with notes := v }

/-- The setSelectedProducts action. -/
def setSelectedProducts (v : List String) (s : StyliiStore) : StyliiStore :=
  { s with selectedProducts := v }

/-- The setIsGenerating action. -/
def setIsGenerating (v : Bool) (s : StyliiStore) : StyliiStore := { s with isGenerating := v }

/-- The setError action. -/
def setError (v : Option String) (s : StyliiStore) : StyliiStore := { s with error := v }

/-- The setProgress action. -/
def setProgress (v : Option StreamingProgress) (s : StyliiStore) : StyliiStore :=
  { s with currentProgress := v }

/-- The addResult action: prepends to history, makes the entry current, and
clears the in-flight flag, the progress snapshot and the error. -/
def addResult (r : DesignResult) (s : StyliiStore) : StyliiStore :=
  { s with results := r :: s.results
           currentResultId := some r.id
           isGenerating := false
           currentProgress := none
           error := none }

/-- The setCurrentResult action. -/
def setCurrentResult (id : String) (s : StyliiStore) : StyliiStore :=
  { s with currentResultId := some id }

/-- The reset action: restores the form fields and the transient UI state
to their defaults; `results` and `currentResultId` are not listed in the
partial update, so they are untouched. -/
def reset (s : StyliiStore) : StyliiStore :=
  { s with images := [], budget := 5000, style := "modern", notes := ""
           selectedProducts := [], isGenerating := false, error := none
           currentProgress := none }

/-- The error-commit sequence the form submit handler runs in its catch
block: `setError(message); setIsGenerating(false); setProgress(null)`. -/
def commitError (msg : String) (s : StyliiStore) : StyliiStore :=
  setProgress none (setIsGenerating false (setError (some msg) s))

/-! ## The chunk decoder, per byte

`TextDecoder.decode(value, \x7b stream: true \x7d)` followed by buffer
append and the newline split are modelled as a byte-level state machine: the
WHATWG incremental UTF-8 decoder feeding a newline splitter.  Lines are
sequences of code points; the machine emits a line each time code point
10 is completed, and keeps the final fragment (never emitted), matching
`buffer = lines.pop()` and the fact that the loop exits without a final
flush. -/

/-- State of the WHATWG incremental UTF-8 decoder: the partially decoded
code point, how many continuation bytes are still needed, and the
admissible range of the next byte. -/
structure Utf8State where
  codepoint : Nat := 0
  needed : Nat := 0
  lower : Nat := 128
  upper : Nat := 191
deriving DecidableEq

/-- Full decoder state: UTF-8 state, the current (incomplete) line, and
the complete lines emitted so far, in order. -/
structure DecodeState where
  u : Utf8State := {}
  cur : List Nat := []
  lines : List (List Nat) := []
deriving DecidableEq

/-- Route one decoded code point into the newline splitter. -/
def pushCodepoint (s : DecodeState) (cp : Nat) : DecodeState :=
  if cp = 10 then { s with cur := [], lines := s.lines ++ [s.cur] }
  else { s with cur := s.cur ++ [cp] }

/-- The WHATWG decoder step for a byte arriving with no sequence in
progress: ASCII is emitted, a lead byte opens a sequence with its range
restrictions, anything else emits U+FFFD. -/
def stepFresh (s : DecodeState) (b : Nat) : DecodeState :=
  if b ≤ 127 then pushCodepoint s b
  else if 194 ≤ b ∧ b ≤ 223 then
    { s with u := { codepoint := b - 192, needed := 1, lower := 128, upper := 191 } }
  else if 224 ≤ b ∧ b ≤ 239 then
    { s with u := { codepoint := b - 224, needed := 2
                    lower := if b = 224 then 160 else 128
                    upper := if b = 237 then 159 else 191 } }
  else if 240 ≤ b ∧ b ≤ 244 then
    { s with u := { codepoint := b - 240, needed := 3
                    lower := if b = 240 then 144 else 128
                    upper := if b = 244 then 143 else 191 } }
  else pushCodepoint s 65533

/-- One byte through the decoder.  An out-of-range byte while a sequence
is in progress emits U+FFFD and reprocesses the byte fresh, per the
WHATWG "restore the byte" rule. -/
def decodeByte (s : DecodeState) (b : Nat) : DecodeState :=
  if s.u.needed = 0 then stepFresh s b
  else if s.u.lower ≤ b ∧ b ≤ s.u.upper then
    let cp := s.u.codepoint * 64 + (b % 64)
    if s.u.needed = 1 then
      pushCodepoint { s with u := {} } cp
    else
      { s with u := { codepoint := cp, needed := s.u.needed - 1, lower := 128, upper := 191 } }
  else
    stepFresh { pushCodepoint s 65533 with u := {} } b

/-- Feed one chunk of bytes through the decoder. -/
def decodeChunk (s : DecodeState) (chunk : List Nat) : DecodeState :=
  chunk.foldl decodeByte s

/-- Feed a whole sequence of chunks, as the read loop does. -/
def decodeChunks (chunks : List (List Nat)) : DecodeState :=
  chunks.foldl decodeChunk {}

/-! ## Lemmas about the line loop -/

/-- The last element of `ps`, else the default `d`. -/
def lastOr (ps : List Payload) (d : Option Payload) : Option Payload :=
  match ps.getLast? with
  | some p => some p
  | none => d

theorem lastOr_cons (p : Payload) (ps : List Payload) (d : Option Payload) :
    lastOr (p :: ps) d = lastOr ps (some p) := by
  cases ps with
  | nil => simp [lastOr]
  | cons q qs =>
    simp only [lastOr, List.getLast?_cons_cons]
    cases hq : (q :: qs).getLast? with
    | some x => rfl
    | none => simp at hq

theorem isProgressPayload_iff (p : Payload) :
    isProgressPayload p = true ↔ errTruthy p = false ∧ isSuccessPayload p = false := by
  simp [isProgressPayload, Bool.and_eq_true, Bool.not_eq_true']

/-- The terminal-payload slot after the loop holds the last accepted
success payload, else the incoming slot value. -/
theorem foldl_finalResult (cb : Option (StreamingProgress → Bool)) :
    ∀ (lines : List SSELine) (s : LoopState),
    (lines.foldl (processLine cb) s).finalResult
      = lastOr (successPayloads lines) s.finalResult := by
  intro lines
  induction lines with
  | nil => intro s; simp [successPayloads, lastOr]
  | cons l rest ih =>
    intro s
    rw [List.foldl_cons, ih]
    cases l with
    | noData raw => simp [successPayloads, processLine]
    | malformed raw => simp [successPayloads, processLine]
    | frame p =>
      cases he : errTruthy p with
      | true => simp [successPayloads, processLine, he]
      | false =>
        cases hs : isSuccessPayload p with
        | true =>
          simp only [successPayloads, List.filterMap_cons, he, hs]
          simp [processLine, he, hs, lastOr_cons, successPayloads]
        | false =>
          cases cb with
          | none => simp [successPayloads, processLine, he, hs]
          | some f =>
            simp only [successPayloads, List.filterMap_cons, he, hs]
            simp only [processLine, he, hs]
            cases f (mkProgress p) <;> simp [successPayloads]

/-- Folding only progress frames: every frame causes exactly one callback
invocation, appended in arrival order, and the terminal slot is
untouched, whatever each invocation returns. -/
theorem foldl_progress (f : StreamingProgress → Bool) :
    ∀ (payloads : List Payload), (∀ p ∈ payloads, isProgressPayload p = true) →
    ∀ (s : LoopState),
    ((payloads.map SSELine.frame).foldl (processLine (some f)) s).dispatched
        = s.dispatched ++ payloads.map mkProgress
    ∧ ((payloads.map SSELine.frame).foldl (processLine (some f)) s).finalResult
        = s.finalResult := by
  intro payloads
  induction payloads with
  | nil => intro _ s; simp
  | cons p rest ih =>
    intro h s
    obtain ⟨he, hs⟩ := (isProgressPayload_iff p).mp (h p (by simp))
    have hrest := fun q hq => h q (List.mem_cons_of_mem p hq)
    simp only [List.map_cons, List.foldl_cons, processLine, he, hs]
    cases hf : f (mkProgress p) with
    | true =>
      obtain ⟨h1, h2⟩ := ih hrest { s with dispatched := s.dispatched ++ [mkProgress p] }
      simp_all [List.append_assoc]
    | false =>
      obtain ⟨h1, h2⟩ := ih hrest
        { s with dispatched := s.dispatched ++ [mkProgress p], warnings := s.warnings + 1 }
      simp_all [List.append_assoc]

/-- Folding only progress frames under an always-throwing callback: one
logged warning per frame. -/
theorem foldl_progress_warnings :
    ∀ (payloads : List Payload), (∀ p ∈ payloads, isProgressPayload p = true) →
    ∀ (s : LoopState),
    ((payloads.map SSELine.frame).foldl (processLine (some (fun _ => false))) s).warnings
        = s.warnings + payloads.length := by
  intro payloads
  induction payloads with
  | nil => intro _ s; simp
  | cons p rest ih =>
    intro h s
    obtain ⟨he, hs⟩ := (isProgressPayload_iff p).mp (h p (by simp))
    have hrest := fun q hq => h q (List.mem_cons_of_mem p hq)
    simp only [List.map_cons, List.foldl_cons, processLine, he, hs]
    rw [ih hrest]
    simp [Nat.add_assoc, Nat.add_comm 1 rest.length]

/-- The display ids produced by the product mapper are the 1-based
positions, independent of the payload entries. -/
theorem mapIdx_product_ids (l : List ProductRec) :
    ((l.mapIdx mkProduct).map Product.id)
      = (List.range l.length).map (fun i => toString (i + 1)) := by
  rw [List.mapIdx_eq_ofFn, List.map_ofFn, List.ofFn_eq_map, ← List.map_coe_finRange,
    List.map_map]
  rfl

/-- Shorthand for the loop state reached at the end of the body. -/
def loopStateOf (resp : HttpResp) (cb : Option (StreamingProgress → Bool)) : LoopState :=
  resp.lines.foldl (processLine cb) {}

/-- On the happy-path guards, a run whose loop captured no terminal
payload settles on the missing-result rejection. -/
theorem run_of_finalResult_none (input : GenerateDesignInput) (resp : HttpResp)
    (cb : Option (StreamingProgress → Bool)) (env : Env)
    (himg : input.images.isEmpty = false) (hok : resp.ok = true) (hbody : resp.hasBody = true)
    (hfr : (loopStateOf resp cb).finalResult = none) :
    generateDesignRun input resp cb env =
      { outcome := .error ("No final result received from server")
        networkCalled := true
        dispatched := (loopStateOf resp cb).dispatched
        warnings := (loopStateOf resp cb).warnings } := by
  unfold loopStateOf at hfr
  simp [generateDesignRun, himg, hok, hbody, hfr, loopStateOf]

/-- On the happy-path guards, a run whose loop captured `p` resolves with
the transformation of `p`. -/
theorem run_of_finalResult_some (input : GenerateDesignInput) (resp : HttpResp)
    (cb : Option (StreamingProgress → Bool)) (env : Env) (p : Payload)
    (himg : input.images.isEmpty = false) (hok : resp.ok = true) (hbody : resp.hasBody = true)
    (hfr : (loopStateOf resp cb).finalResult = some p) :
    generateDesignRun input resp cb env =
      { outcome := .ok (transformResult input p env)
        networkCalled := true
        dispatched := (loopStateOf resp cb).dispatched
        warnings := (loopStateOf resp cb).warnings } := by
  unfold loopStateOf at hfr
  simp [generateDesignRun, himg, hok, hbody, hfr, loopStateOf]

/-- A run over N progress frames followed by one terminal-success frame:
the callback fires once per progress frame in order, the terminal payload
is captured, and the attempt resolves with its transformation — for every
callback `f`, whatever each invocation returns. -/
theorem run_progress_then_success (input : GenerateDesignInput) (resp : HttpResp)
    (f : StreamingProgress → Bool) (env : Env) (payloads : List Payload) (sp : Payload)
    (himg : input.images.isEmpty = false) (hok : resp.ok = true) (hbody : resp.hasBody = true)
    (hlines : resp.lines = payloads.map SSELine.frame ++ [SSELine.frame sp])
    (hprog : ∀ p ∈ payloads, isProgressPayload p = true)
    (herr : errTruthy sp = false) (hsucc : isSuccessPayload sp = true) :
    generateDesignRun input resp (some f) env =
      { outcome := .ok (transformResult input sp env)
        networkCalled := true
        dispatched := payloads.map mkProgress
        warnings := ((payloads.map SSELine.frame).foldl (processLine (some f)) {}).warnings } := by
  have hfold := foldl_progress f payloads hprog {}
  have hstate : loopStateOf resp (some f) =
      processLine (some f)
        ((payloads.map SSELine.frame).foldl (processLine (some f)) {}) (SSELine.frame sp) := by
    unfold loopStateOf
    rw [hlines, List.foldl_append, List.foldl_cons, List.foldl_nil]
  have hproc : ∀ t : LoopState,
      processLine (some f) t (SSELine.frame sp) = { t with finalResult := some sp } := by
    intro t; simp [processLine, herr, hsucc]
  have hfr : (loopStateOf resp (some f)).finalResult = some sp := by
    rw [hstate, hproc]
  have hdisp : (loopStateOf resp (some f)).dispatched = payloads.map mkProgress := by
    rw [hstate, hproc]
    simpa using hfold.1
  have hwarn : (loopStateOf resp (some f)).warnings
      = ((payloads.map SSELine.frame).foldl (processLine (some f)) {}).warnings := by
    rw [hstate, hproc]
  rw [run_of_finalResult_some input resp (some f) env sp himg hok hbody hfr, hdisp, hwarn]

/-! ## Concrete fixtures -/

/-- A fixed environment record for concrete evaluations. -/
def sampleEnv : Env := { startTime := 0, endTime := 1000, now := 5, randToken := "tok00" }

/-- A valid one-image request. -/
def sampleInput : GenerateDesignInput :=
  { images := ["room.png"], style := "scandinavian", budget := 800 }

/-- A request with no image. -/
def emptyInput : GenerateDesignInput :=
  { images := [], style := "modern", budget := 5000 }

/-- A progress payload. -/
def progressPayload1 : Payload :=
  { status := some ("processing"), message := some ("Analyzing...") }

/-- A terminal-success payload with one recommended product. -/
def successPayload : Payload :=
  { status := some ("completed"), success := true, request_id := some ("abc123")
    designer_data := some
      { product_recommendations := some
          [ { title := some ("Lamp"), vendor := some ("IKEA"), price := some 49 } ] } }

/-- A terminal-success payload tagged as the first of two. -/
def successPayloadA : Payload :=
  { status := some ("completed"), success := true, request_id := some ("first") }

/-- A terminal-success payload tagged as the second of two. -/
def successPayloadB : Payload :=
  { status := some ("completed"), success := true, request_id := some ("second") }

/-- A terminal-error payload. -/
def errorPayload : Payload := { error := some ("upstream timeout") }

/-- A healthy response whose stream holds one progress frame then one
success frame. -/
def respProgressSuccess : HttpResp :=
  { ok := true, status := 200, hasBody := true
    lines := [SSELine.frame progressPayload1, SSELine.frame successPayload] }

/-- A healthy response whose stream holds only one progress frame. -/
def respProgressOnly : HttpResp :=
  { ok := true, status := 200, hasBody := true
    lines := [SSELine.frame progressPayload1] }

/-- A healthy response whose stream holds only one terminal-error frame. -/
def respErrorOnly : HttpResp :=
  { ok := true, status := 200, hasBody := true
    lines := [SSELine.frame errorPayload] }

/-- A healthy response whose stream holds two distinct success frames. -/
def respTwoSuccess : HttpResp :=
  { ok := true, status := 200, hasBody := true
    lines := [SSELine.frame successPayloadA, SSELine.frame successPayloadB] }

/-! ## Lemmas about the chunk decoder -/

/-- Chunked decoding is the byte fold over the concatenation. -/
theorem decodeChunks_eq_join (chunks : List (List Nat)) :
    decodeChunks chunks = decodeChunk {} chunks.flatten := by
  suffices h : ∀ (s : DecodeState), chunks.foldl decodeChunk s = decodeChunk s chunks.flatten by
    exact h {}
  induction chunks with
  | nil => intro s; simp [decodeChunk]
  | cons c cs ih =>
    intro s
    have hfl : (c :: cs).flatten = c ++ cs.flatten := rfl
    rw [List.foldl_cons, ih (decodeChunk s c), hfl]
    simp only [decodeChunk, List.foldl_append]

/-! ## Claim theorems -/

/-- C1: at the failing input — a healthy stream whose only frame is
`data:` with `error: "upstream timeout"` — the client does not reject
with the error message of the frame.  The throw of that message lands
in the same catch block that guards `JSON.parse`, so it is logged
(one warning) and swallowed; with no success frame the attempt then
rejects with the generic missing-result message instead of
"upstream timeout". -/
theorem error_frame_swallowed_not_propagated :
    generateDesignRun sampleInput respErrorOnly (some (fun _ => true)) sampleEnv
      = { outcome := .error ("No final result received from server")
          networkCalled := true, dispatched := [], warnings := 1 }
    ∧ (generateDesignRun sampleInput respErrorOnly (some (fun _ => true)) sampleEnv).outcome
        ≠ .error ("upstream timeout") := by
  have h1 : generateDesignRun sampleInput respErrorOnly (some (fun _ => true)) sampleEnv
      = { outcome := .error ("No final result received from server")
          networkCalled := true, dispatched := [], warnings := 1 } := rfl
  refine ⟨h1, ?_⟩
  rw [h1]
  decide

/-- C2 counterexample: a stream with two terminal-success frames resolves
with the transformation of the payload of the SECOND frame, not the first:
each capture overwrites `finalResult`, so last one wins. -/
theorem first_success_not_transformed_cex :
    (generateDesignRun sampleInput respTwoSuccess none sampleEnv).outcome
        = .ok (transformResult sampleInput successPayloadB sampleEnv)
    ∧ (generateDesignRun sampleInput respTwoSuccess none sampleEnv).outcome
        ≠ .ok (transformResult sampleInput successPayloadA sampleEnv) := by
  refine ⟨rfl, ?_⟩
  decide

/-- C2 amended: when the accepted terminal-success payloads of a stream are
`ps ++ [p]`, the LAST one (`p`) is the payload transformed into the
`DesignResult`, consumption having drained the whole stream; exactly one
`DesignResult` is produced for the attempt (the single resolved value). -/
theorem last_success_frame_wins (input : GenerateDesignInput) (resp : HttpResp)
    (cb : Option (StreamingProgress → Bool)) (env : Env)
    (ps : List Payload) (p : Payload)
    (himg : input.images.isEmpty = false) (hok : resp.ok = true) (hbody : resp.hasBody = true)
    (hsp : successPayloads resp.lines = ps ++ [p]) :
    (generateDesignRun input resp cb env).outcome = .ok (transformResult input p env) := by
  have hfr : (loopStateOf resp cb).finalResult = some p := by
    unfold loopStateOf
    rw [foldl_finalResult cb resp.lines {}, hsp]
    simp [lastOr, List.getLast?_concat]
  rw [run_of_finalResult_some input resp cb env p himg hok hbody hfr]

/-- C2 witness: both success frames of the concrete two-success stream
are accepted, and the run resolves with the transformation of the second. -/
theorem last_success_frame_wins_witness :
    (generateDesignRun sampleInput respTwoSuccess none sampleEnv).outcome
      = .ok (transformResult sampleInput successPayloadB sampleEnv) :=
  last_success_frame_wins sampleInput respTwoSuccess none sampleEnv
    [successPayloadA] successPayloadB (by decide) (by decide) (by decide) (by decide)

/-- C3: committing a result (`addResult`) or an error (the submit
handler catch sequence) always clears the in-flight flag and the
latest-progress snapshot, so the state never pairs `isGenerating` with a
newly committed terminal result or error. -/
theorem commit_clears_inflight_and_progress (s : StyliiStore) (r : DesignResult) (msg : String) :
    (addResult r s).isGenerating = false ∧ (addResult r s).currentProgress = none
    ∧ (commitError msg s).isGenerating = false
    ∧ (commitError msg s).currentProgress = none := by
  simp [addResult, commitError, setProgress, setIsGenerating, setError]

/-- C4: a well-formed stream of N progress frames followed by one
terminal-success frame causes exactly N callback invocations, one per
progress frame, in arrival order (the dispatched list IS the frame list
mapped through the event builder — nothing buffered, reordered, coalesced
or dropped), and the attempt resolves with the transformed payload after
them. -/
theorem progress_dispatched_exactly_once_in_order (input : GenerateDesignInput)
    (resp : HttpResp) (f : StreamingProgress → Bool) (env : Env)
    (payloads : List Payload) (sp : Payload)
    (himg : input.images.isEmpty = false) (hok : resp.ok = true) (hbody : resp.hasBody = true)
    (hlines : resp.lines = payloads.map SSELine.frame ++ [SSELine.frame sp])
    (hprog : ∀ p ∈ payloads, isProgressPayload p = true)
    (herr : errTruthy sp = false) (hsucc : isSuccessPayload sp = true) :
    (generateDesignRun input resp (some f) env).dispatched = payloads.map mkProgress
    ∧ (generateDesignRun input resp (some f) env).dispatched.length = payloads.length
    ∧ (generateDesignRun input resp (some f) env).outcome
        = .ok (transformResult input sp env) := by
  rw [run_progress_then_success input resp f env payloads sp himg hok hbody hlines hprog
    herr hsucc]
  simp

/-- C4 witness: one progress frame then the success frame — exactly one
dispatch, then resolution. -/
theorem progress_dispatched_exactly_once_in_order_witness :
    (generateDesignRun sampleInput respProgressSuccess (some (fun _ => true)) sampleEnv).dispatched
        = [progressPayload1].map mkProgress
    ∧ (generateDesignRun sampleInput respProgressSuccess (some (fun _ => true))
        sampleEnv).dispatched.length = [progressPayload1].length
    ∧ (generateDesignRun sampleInput respProgressSuccess (some (fun _ => true)) sampleEnv).outcome
        = .ok (transformResult sampleInput successPayload sampleEnv) :=
  progress_dispatched_exactly_once_in_order sampleInput respProgressSuccess (fun _ => true)
    sampleEnv [progressPayload1] successPayload rfl rfl rfl rfl (by decide) rfl (by decide)

/-- C5: a healthy stream that ends with no accepted terminal-success
frame makes the attempt reject with the missing-result message; the
outcome carries no `DesignResult`. -/
theorem stream_without_success_rejects (input : GenerateDesignInput) (resp : HttpResp)
    (cb : Option (StreamingProgress → Bool)) (env : Env)
    (himg : input.images.isEmpty = false) (hok : resp.ok = true) (hbody : resp.hasBody = true)
    (hns : successPayloads resp.lines = []) :
    (generateDesignRun input resp cb env).outcome
      = .error ("No final result received from server") := by
  have hfr : (loopStateOf resp cb).finalResult = none := by
    unfold loopStateOf
    rw [foldl_finalResult cb resp.lines {}, hns]
    rfl
  rw [run_of_finalResult_none input resp cb env himg hok hbody hfr]

/-- C5 witness: a stream holding a single progress frame and no terminal
frame rejects with the missing-result message. -/
theorem stream_without_success_rejects_witness :
    (generateDesignRun sampleInput respProgressOnly (some (fun _ => true)) sampleEnv).outcome
      = .error ("No final result received from server") :=
  stream_without_success_rejects sampleInput respProgressOnly (some (fun _ => true)) sampleEnv
    (by decide) (by decide) (by decide) (by decide)

/-- C6: for a terminal-success payload whose recommendation list has
length K, the transformed result has K products whose display ids are the
strings of 1..K by position (payload-independent), and the resulting style
and budget are the request values. -/
theorem transform_products_shape (input : GenerateDesignInput) (p : Payload) (env : Env)
    (K : Nat) (hK : (payloadRecs p).length = K) :
    (transformResult input p env).products.length = K
    ∧ (transformResult input p env).products.map Product.id
        = (List.range K).map (fun i => toString (i + 1))
    ∧ (transformResult input p env).style = input.style
    ∧ (transformResult input p env).budget = input.budget := by
  subst hK
  refine ⟨?_, ?_, rfl, rfl⟩
  · simp [transformResult, List.length_mapIdx]
  · simpa only [transformResult] using mapIdx_product_ids (payloadRecs p)

/-- C6 witness: the one-product success payload transforms to one product
with display id "1", style and budget echoed from the request. -/
theorem transform_products_shape_witness :
    (transformResult sampleInput successPayload sampleEnv).products.length = 1
    ∧ (transformResult sampleInput successPayload sampleEnv).products.map Product.id
        = (List.range 1).map (fun i => toString (i + 1))
    ∧ (transformResult sampleInput successPayload sampleEnv).style = sampleInput.style
    ∧ (transformResult sampleInput successPayload sampleEnv).budget = sampleInput.budget :=
  transform_products_shape sampleInput successPayload sampleEnv 1 (by decide)

/-- C7: two chunkings of the same byte sequence make the decoder emit the
identical sequence of complete lines — the emitted lines depend only on
the concatenated bytes, even when a chunk boundary falls inside a
multi-byte UTF-8 character. -/
theorem decoder_chunk_boundary_independent (c1 c2 : List (List Nat))
    (h : c1.flatten = c2.flatten) :
    (decodeChunks c1).lines = (decodeChunks c2).lines := by
  rw [decodeChunks_eq_join, decodeChunks_eq_join, h]

/-- C7 witness: the bytes of "data: x\né\n" split in the middle of the
two-byte character é (0xC3 0xA9) against the unsplit chunking: identical
lines, namely "data: x" and "é". -/
theorem decoder_chunk_boundary_independent_witness :
    (decodeChunks [[100, 97, 116, 97, 58, 32, 120, 10, 195], [169, 10]]).lines
      = (decodeChunks [[100, 97, 116, 97, 58, 32, 120, 10, 195, 169, 10]]).lines
    ∧ (decodeChunks [[100, 97, 116, 97, 58, 32, 120, 10, 195, 169, 10]]).lines
      = [[100, 97, 116, 97, 58, 32, 120], [233]] :=
  ⟨decoder_chunk_boundary_independent
      [[100, 97, 116, 97, 58, 32, 120, 10, 195], [169, 10]]
      [[100, 97, 116, 97, 58, 32, 120, 10, 195, 169, 10]] (by decide), by decide⟩

/-- C8: a request with an empty image list rejects immediately with the
validation message; `fetch` is never reached, nothing is dispatched. -/
theorem empty_images_rejects_without_network (input : GenerateDesignInput) (resp : HttpResp)
    (cb : Option (StreamingProgress → Bool)) (env : Env) (h : input.images = []) :
    generateDesignRun input resp cb env =
      { outcome := .error ("At least one image is required")
        networkCalled := false, dispatched := [], warnings := 0 } := by
  simp [generateDesignRun, h]

/-- C8 witness: the empty-image request against a healthy response value
still rejects with the validation error and no network call. -/
theorem empty_images_rejects_without_network_witness :
    generateDesignRun emptyInput respProgressSuccess none sampleEnv =
      { outcome := .error ("At least one image is required")
        networkCalled := false, dispatched := [], warnings := 0 } :=
  empty_images_rejects_without_network emptyInput respProgressSuccess none sampleEnv rfl

/-- C9: `reset` returns the form inputs to their defaults and clears the
transient error and progress, while leaving the result history and the
current-result pointer untouched. -/
theorem reset_clears_form_keeps_history (s : StyliiStore) :
    (reset s).images = initialStore.images ∧ (reset s).budget = initialStore.budget
    ∧ (reset s).style = initialStore.style ∧ (reset s).notes = initialStore.notes
    ∧ (reset s).selectedProducts = initialStore.selectedProducts
    ∧ (reset s).error = none ∧ (reset s).currentProgress = none
    ∧ (reset s).isGenerating = false
    ∧ (reset s).results = s.results
    ∧ (reset s).currentResultId = s.currentResultId := by
  simp [reset, initialStore]

/-- C10: with a callback that throws on every invocation, each throw is
caught at the per-frame boundary and logged (one warning per progress
frame), all frames are still consumed with one invocation per progress
frame, and the later terminal-success frame still resolves the attempt. -/
theorem throwing_callback_swallowed (input : GenerateDesignInput) (resp : HttpResp)
    (env : Env) (payloads : List Payload) (sp : Payload)
    (himg : input.images.isEmpty = false) (hok : resp.ok = true) (hbody : resp.hasBody = true)
    (hlines : resp.lines = payloads.map SSELine.frame ++ [SSELine.frame sp])
    (hprog : ∀ p ∈ payloads, isProgressPayload p = true)
    (herr : errTruthy sp = false) (hsucc : isSuccessPayload sp = true) :
    (generateDesignRun input resp (some (fun _ => false)) env).outcome
        = .ok (transformResult input sp env)
    ∧ (generateDesignRun input resp (some (fun _ => false)) env).dispatched
        = payloads.map mkProgress
    ∧ (generateDesignRun input resp (some (fun _ => false)) env).warnings
        = payloads.length := by
  rw [run_progress_then_success input resp (fun _ => false) env payloads sp himg hok hbody
    hlines hprog herr hsucc]
  refine ⟨rfl, rfl, ?_⟩
  simpa using foldl_progress_warnings payloads hprog {}

/-- C10 witness: the progress-then-success stream under an
always-throwing callback still resolves, with one invocation and one
logged warning. -/
theorem throwing_callback_swallowed_witness :
    (generateDesignRun sampleInput respProgressSuccess (some (fun _ => false)) sampleEnv).outcome
        = .ok (transformResult sampleInput successPayload sampleEnv)
    ∧ (generateDesignRun sampleInput respProgressSuccess (some (fun _ => false))
        sampleEnv).dispatched = [progressPayload1].map mkProgress
    ∧ (generateDesignRun sampleInput respProgressSuccess (some (fun _ => false))
        sampleEnv).warnings = [progressPayload1].length :=
  throwing_callback_swallowed sampleInput respProgressSuccess sampleEnv
    [progressPayload1] successPayload rfl rfl rfl rfl (by decide) rfl (by decide)

end Stylii
